import Mathlib

/-!
# NPC Royale server — verification of the player-economy subsystem

Shallow embedding of the relevant parts of `src/server.js` (the current
"NEW SERVER VERSION" section; the superseded historical variants in the
same file are not modelled, per the spec's design note that earlier
variants are superseded).  The relational store is modelled as lists of
rows; a SQL `UPDATE`/`INSERT` becomes a pure function on the store, a
transaction (`BEGIN`/`COMMIT`/`ROLLBACK`) becomes a computation whose
error path returns the pre-transaction store.  Queries that can fail for
reasons outside the program (constraint violations, connection loss) take
a fault oracle `fail : Nat → Bool` naming the query index that fails.
-/

namespace NpcRoyale

/-- A `players` row: id issued by the external identity provider,
display name, matchmaking rating. -/
structure Player where
  id : String
  username : String
  mmr : Int
  deriving Repr, DecidableEq

/-- A `player_stats` row (one-to-one with `players`). -/
structure PlayerStats where
  player_id : String
  matches_played : Int
  wins : Int
  kills : Int
  deaths : Int
  deriving Repr, DecidableEq

/-- A `currencies` catalog row, keyed by a stable symbolic key
such as `"cash"`. -/
structure Currency where
  id : Nat
  key : String
  deriving Repr, DecidableEq

/-- A `player_wallets` row: one per (player, currency). -/
structure PlayerWallet where
  player_id : String
  currency_id : Nat
  balance : Int
  deriving Repr, DecidableEq

/-- A `player_npcs` row (one-to-one with `players`). -/
structure PlayerNpc where
  player_id : String
  strength : Int
  perception : Int
  agility : Int
  deriving Repr, DecidableEq

/-- A `player_equipment` row: one per (player, slot); the referenced
owned item, or `none` for an empty slot. -/
structure PlayerEquipment where
  player_id : String
  slot : String
  player_item_id : Option Nat
  deriving Repr, DecidableEq

/-- An `item_defs` catalog row.  `price_cash` is `none` when the price
property is absent or malformed (the catalog JSON `base_props` carries it
and nothing in scope guarantees its shape). -/
structure ItemDef where
  id : Nat
  key : String
  category : String
  is_active : Bool
  price_cash : Option Int
  deriving Repr, DecidableEq

/-- A `player_items` row: an owned instance of an `ItemDef`. -/
structure PlayerItem where
  id : Nat
  player_id : String
  item_def_id : Nat
  deriving Repr, DecidableEq

/-- The relational store.  `next_item_id` models the id sequence used for
new `player_items` rows. -/
structure Db where
  players : List Player
  player_stats : List PlayerStats
  currencies : List Currency
  player_wallets : List PlayerWallet
  player_npcs : List PlayerNpc
  player_equipment : List PlayerEquipment
  item_defs : List ItemDef
  player_items : List PlayerItem
  next_item_id : Nat
  deriving Repr, DecidableEq

/-- The `SELECT pw.balance FROM player_wallets pw JOIN currencies c ON
c.id = pw.currency_id WHERE pw.player_id = $1 AND c.key = 'cash'` lookup
used by the profile handler. -/
def Db.cashWalletFor (db : Db) (pid : String) : Option PlayerWallet :=
  db.player_wallets.find? fun w =>
    w.player_id = pid && db.currencies.any fun c => c.id = w.currency_id && c.key = "cash"

/-- `SELECT id FROM currencies WHERE key = 'cash' LIMIT 1`. -/
def Db.cashCurrency (db : Db) : Option Currency :=
  db.currencies.find? (·.key = "cash")

/-- Errors raised inside the provisioning transaction of
`createPlayerRows` (src/server.js:453-508): the explicit
`CASH_CURRENCY_NOT_FOUND` throw, or an injected fault at query `step`. -/
inductive ProvisionError where
  | cashCurrencyNotFound
  | queryFailed (step : Nat)
  deriving Repr, DecidableEq

/-- The body of the `createPlayerRows` transaction
(src/server.js:457-500), between `BEGIN` and `COMMIT`: insert `players`,
insert `player_stats`, look up the `cash` currency (throwing
`CASH_CURRENCY_NOT_FOUND` when absent), insert `player_wallets` with
balance 0, insert `player_npcs` with attributes (1,1,1), insert
`player_equipment` with slot `weapon_primary` empty.  Query `k` fails
when `fail k` is true.  The `player_stats` insert names only `player_id`;
its counter columns take the schema defaults, modelled from the spec
("Created at provisioning with zero values"); likewise `players.mmr`
takes a default, modelled as 0 per the new-account scenario. -/
def createPlayerRowsBody (db : Db) (userId username : String) (fail : Nat → Bool) :
    Except ProvisionError Db :=
  if fail 0 then .error (.queryFailed 0) else
  let db1 : Db := { db with players := db.players ++ [⟨userId, username, 0⟩] }
  if fail 1 then .error (.queryFailed 1) else
  let db2 : Db := { db1 with player_stats := db1.player_stats ++ [⟨userId, 0, 0, 0, 0⟩] }
  if fail 2 then .error (.queryFailed 2) else
  match db2.cashCurrency with
  | none => .error ProvisionError.cashCurrencyNotFound
  | some c =>
    if fail 3 then .error (.queryFailed 3) else
    let db3 : Db := { db2 with player_wallets := db2.player_wallets ++ [⟨userId, c.id, 0⟩] }
    if fail 4 then .error (.queryFailed 4) else
    let db4 : Db := { db3 with player_npcs := db3.player_npcs ++ [⟨userId, 1, 1, 1⟩] }
    if fail 5 then .error (.queryFailed 5) else
    .ok { db4 with player_equipment := db4.player_equipment ++
      [⟨userId, "weapon_primary", none⟩] }

/-- `createPlayerRows` (src/server.js:453-508) with its transaction
wrapper: on any error inside the body the `catch` issues `ROLLBACK` and
rethrows, so the store reverts to its pre-transaction state; query 6 is
the `COMMIT` itself.  Returns the resulting store and the error, if any. -/
def createPlayerRows (db : Db) (userId username : String) (fail : Nat → Bool) :
    Db × Option ProvisionError :=
  match createPlayerRowsBody db userId username fail with
  | .ok d => if fail 6 then (db, some (.queryFailed 6)) else (d, none)
  | .error e => (db, some e)

/-- Result of the `GET /profile` handler (src/server.js:829-900, the
active version, which reads player, stats, cash wallet and npc): 404
`Player not found`, 500 `BROKEN_ACCOUNT_STATE`, or the assembled
snapshot `{player, stats, wallet.cash, npc}`. -/
inductive ProfileResult where
  | playerNotFound
  | brokenAccountState
  | ok (player : Player) (stats : PlayerStats) (cash : Int) (npc : PlayerNpc)
  deriving Repr, DecidableEq

/-- The `GET /profile` handler body (src/server.js:829-900), after
`requireAuth` has resolved `userId`: `SELECT` player (404 when absent),
then stats, cash wallet (join on `currencies.key = 'cash'`), and npc,
each returning 500 `BROKEN_ACCOUNT_STATE` when absent; otherwise the
assembled response.  Only `SELECT`s run, so the store is returned
unchanged. -/
def getProfile (db : Db) (userId : String) : ProfileResult × Db :=
  match db.players.find? (·.id = userId) with
  | none => (.playerNotFound, db)
  | some p =>
    match db.player_stats.find? (·.player_id = userId) with
    | none => (.brokenAccountState, db)
    | some s =>
      match db.cashWalletFor userId with
      | none => (.brokenAccountState, db)
      | some w =>
        match db.player_npcs.find? (·.player_id = userId) with
        | none => (.brokenAccountState, db)
        | some npc => (.ok p s w.balance npc, db)

/-- Request body of `POST /match-result` as destructured by the handler
(src/server.js:798): `{ playerId, kills, win }`, each possibly absent.
`win` is used only for truthiness, so a `Bool` (absent = false). -/
structure MatchResultBody where
  playerId : Option String
  kills : Option Int
  win : Bool
  deriving Repr, DecidableEq

/-- Response of `POST /match-result`: the handler always answers
`{ ok: true }` on the non-exception path. -/
structure MatchResultResponse where
  ok : Bool
  deriving Repr, DecidableEq

/-- The `POST /match-result` handler (src/server.js:796-818).  The route
is registered WITHOUT the `requireAuth` middleware: no token is read or
validated, and the updated player is `body.playerId`, straight from the
request body.  The SQL `UPDATE player_stats SET matches_played =
matches_played + 1, kills = kills + $1, wins = wins + $2 WHERE player_id
= $3` with parameters `[kills || 0, win ? 1 : 0, playerId]` updates every
matching row (an absent `playerId` binds SQL NULL and matches none);
`kills || 0` substitutes 0 for an absent `kills`.  The handler then
responds `{ ok: true }` regardless of how many rows matched. -/
def matchResultHandler (db : Db) (body : MatchResultBody) : MatchResultResponse × Db :=
  (⟨true⟩, { db with player_stats := db.player_stats.map (fun s =>
    if some s.player_id = body.playerId then
      { s with matches_played := s.matches_played + 1,
               kills := s.kills + body.kills.getD 0,
               wins := s.wins + (if body.win then 1 else 0) }
    else s) })

/-- Errors of `POST /profile/update-username`
(src/server.js:1059-1100). -/
inductive UsernameError where
  | invalidLength
  | invalidFormat
  | usernameTaken
  deriving Repr, DecidableEq

/-- One character of the `/^[a-zA-Z0-9_]+$/` class
(src/server.js:1069). -/
def usernameCharOk (c : Char) : Bool :=
  c.isAlpha || c.isDigit || c = '_'

/-- The `/^[a-zA-Z0-9_]+$/` test (src/server.js:1069): nonempty and all
characters in the class. -/
def usernameFormatOk (u : String) : Bool :=
  u.length > 0 && u.toList.all usernameCharOk

/-- The `POST /profile/update-username` handler
(src/server.js:1059-1100), after `requireAuth` resolved `userId`.
Checks in order: `!username || username.length < 3 || username.length >
20` → `INVALID_LENGTH` (an absent or empty `username` is falsy, and has
length < 3 either way, so `username` is modelled as the `String` to
test); the regex → `INVALID_FORMAT`; the advisory pre-check `SELECT id
FROM players WHERE username = $1` → `USERNAME_TAKEN`; then `UPDATE
players SET username = $1 WHERE id = $2`.  A concurrent writer may
change the store between the pre-check and the `UPDATE`; `interleave`
applies that concurrent effect.  When another row already holds the
name at `UPDATE` time, the storage unique constraint aborts the
statement with SQLSTATE 23505, which the `catch` maps to
`USERNAME_TAKEN` (src/server.js:1094-1096) — the failed statement
mutates nothing. -/
def updateUsernameHandler (db : Db) (interleave : Db → Db) (userId username : String) :
    Except UsernameError Unit × Db :=
  if username.length < 3 ∨ username.length > 20 then
    (.error .invalidLength, db)
  else if !usernameFormatOk username then
    (.error .invalidFormat, db)
  else if db.players.any (·.username = username) then
    (.error .usernameTaken, db)
  else
    let db2 := interleave db
    if db2.players.any (fun p => p.username = username && p.id ≠ userId) then
      (.error .usernameTaken, db2)
    else
      (.ok (), { db2 with players := db2.players.map (fun p =>
        if p.id = userId then { p with username := username } else p) })

/-- The external identity provider's user set, as far as this subsystem
observes it (create on `signUp`, delete on `admin.deleteUser`). -/
structure AuthState where
  identities : List String
  deriving Repr, DecidableEq

/-- Outcome of `POST /auth/signup` (src/server.js:537-588). -/
inductive SignupOutcome where
  | authError
  | accountInitFailed
  | ok (userId : String)
  deriving Repr, DecidableEq

/-- The `POST /auth/signup` handler (src/server.js:537-588), starting
from the `supabase.auth.signUp` call, whose result is the `signUp`
parameter (`.error` = provider error passed through with 400; `.ok uid`
= identity `uid` created at the provider).  On provider success the
handler runs `createPlayerRows`; if that throws, the catch block deletes
the just-created auth user via `supabaseAdmin.auth.admin.deleteUser`
and responds 500 `ACCOUNT_INIT_FAILED`. -/
def signupHandler (auth : AuthState) (db : Db) (signUp : Except String String)
    (username : String) (fail : Nat → Bool) : SignupOutcome × AuthState × Db :=
  match signUp with
  | .error _ => (.authError, auth, db)
  | .ok uid =>
    let auth1 : AuthState := ⟨auth.identities ++ [uid]⟩
    match createPlayerRows db uid username fail with
    | (db1, none) => (.ok uid, auth1, db1)
    | (db1, some _) =>
      (.accountInitFailed, ⟨auth1.identities.filter (· ≠ uid)⟩, db1)

/-- Errors of `POST /store/buy`, per the repository's error catalog. -/
inductive BuyError where
  | itemNotFound
  | itemInactive
  | invalidPrice
  | notEnoughCash
  deriving Repr, DecidableEq

/-- Modelled from the spec: the `POST /store/buy` handler is absent from
src (only the error catalog and the smoke-test caller mention it).
Following §4.2 verbatim: the ItemDef must exist (`ItemNotFound`), be
active (`ItemInactive`), carry a well-formed non-negative price
(`InvalidPrice`), and the player's cash wallet balance must cover the
price (`NotEnoughCash`); the four checks and the debit-and-grant form
one atomic unit, so every failing path leaves the store unchanged.  On
success the wallet is debited by the price, one new `PlayerItem`
referencing the ItemDef and player is inserted, and its id is
returned. -/
def storeBuy (db : Db) (pid : String) (itemDefId : Nat) : Except BuyError Nat × Db :=
  match db.item_defs.find? (·.id = itemDefId) with
  | none => (.error .itemNotFound, db)
  | some idef =>
    if !idef.is_active then (.error .itemInactive, db)
    else
      match idef.price_cash with
      | none => (.error .invalidPrice, db)
      | some price =>
        if price < 0 then (.error .invalidPrice, db)
        else
          match db.cashWalletFor pid with
          | none => (.error .notEnoughCash, db)
          | some w =>
            if w.balance < price then (.error .notEnoughCash, db)
            else
              (.ok db.next_item_id,
               { db with
                 player_wallets := db.player_wallets.map (fun v =>
                   if v.player_id = pid && v.currency_id = w.currency_id then
                     { v with balance := v.balance - price }
                   else v),
                 player_items := db.player_items ++ [⟨db.next_item_id, pid, itemDefId⟩],
                 next_item_id := db.next_item_id + 1 })

/-- Errors of `POST /equipment/equip`, per the repository's error
catalog. -/
inductive EquipError where
  | invalidSlot
  | itemNotOwned
  | invalidItem
  deriving Repr, DecidableEq

/-- Modelled from the spec: the recognized equipment slots.  The only
slot the system defines concretely is the primary weapon slot
`weapon_primary` (created at provisioning), accepting category
`weapon` (§4.3). -/
def recognizedSlots : List String := ["weapon_primary"]

/-- Modelled from the spec (§4.3): which ItemDef category a slot
accepts — `weapon_primary` requires category `weapon`. -/
def slotAccepts (slot category : String) : Bool :=
  slot = "weapon_primary" && category = "weapon"

/-- Modelled from the spec: the `POST /equipment/equip` handler is
absent from src (only the error catalog and the smoke-test runbook
mention it).  Following §4.3 verbatim: the slot must be recognized
(`InvalidSlot`); the `PlayerItem` must exist and be owned by the caller
(`ItemNotOwned`); the underlying ItemDef's category must match what the
slot accepts (`InvalidItem`; a dangling item-def reference cannot
match).  On success the `player_equipment` row for (player, slot) is
overwritten to reference the given item; nothing else changes. -/
def equipHandler (db : Db) (pid slot : String) (playerItemId : Nat) :
    Except EquipError Unit × Db :=
  if !recognizedSlots.contains slot then (.error .invalidSlot, db)
  else
    match db.player_items.find? (·.id = playerItemId) with
    | none => (.error .itemNotOwned, db)
    | some item =>
      if item.player_id ≠ pid then (.error .itemNotOwned, db)
      else
        match db.item_defs.find? (·.id = item.item_def_id) with
        | none => (.error .invalidItem, db)
        | some idef =>
          if !slotAccepts slot idef.category then (.error .invalidItem, db)
          else
            (.ok (),
             { db with player_equipment := db.player_equipment.map (fun e =>
                 if e.player_id = pid && e.slot = slot then
                   { e with player_item_id := some playerItemId }
                 else e) })

/-! ## Example stores used by the witnesses -/

/-- A store holding only the `cash` currency catalog row. -/
def db0 : Db := ⟨[], [], [⟨1, "cash"⟩], [], [], [], [], [], 0⟩

/-- A store with an empty currency catalog. -/
def dbNoCash : Db := ⟨[], [], [], [], [], [], [], [], 0⟩

/-- `cashCurrency` reads only the `currencies` table. -/
theorem cashCurrency_currencies (db : Db) :
    db.cashCurrency = db.currencies.find? (·.key = "cash") := rfl

/-- Rollback helper: whenever the provisioning transaction reports an
error, the store it returns is the pre-call store. -/
theorem createPlayerRows_error_rollback (db : Db) (u n : String) (fail : Nat → Bool)
    (e : ProvisionError) (he : (createPlayerRows db u n fail).2 = some e) :
    (createPlayerRows db u n fail).1 = db := by
  unfold createPlayerRows at he ⊢
  cases h : createPlayerRowsBody db u n fail with
  | ok d =>
    rw [h] at he
    by_cases hf : fail 6
    · simp [hf]
    · simp [hf] at he
  | error e2 => rfl

/-- `find?` commutes with a row transformation that never changes the
predicate's verdict. -/
theorem find?_map_pred {α : Type} (l : List α) (f : α → α) (p : α → Bool)
    (hp : ∀ v, p (f v) = p v) : (l.map f).find? p = (l.find? p).map f := by
  rw [List.find?_map]
  have hpf : p ∘ f = p := funext fun v => hp v
  rw [hpf]

/-! ## Claims -/

/-- C1: Account provisioning is atomic.  For every store, identity and
display name, (a) whenever `createPlayerRows` reports any error — an
injected query fault at any step or the `cash` currency missing — the
resulting store equals the pre-call store; (b) in particular, with a
`cash`-less catalog and no other fault the call fails with
`CASH_CURRENCY_NOT_FOUND` and changes nothing; (c) hence if no
Player/PlayerStats/PlayerWallet/PlayerNpc/PlayerEquipment row for that
identity existed before a failing call, none exists after it. -/
theorem provisioning_atomicity (db : Db) (u n : String) (fail : Nat → Bool) :
    (∀ e, (createPlayerRows db u n fail).2 = some e →
        (createPlayerRows db u n fail).1 = db) ∧
    (db.cashCurrency = none → (∀ k, fail k = false) →
        createPlayerRows db u n fail = (db, some ProvisionError.cashCurrencyNotFound)) ∧
    (∀ e, (createPlayerRows db u n fail).2 = some e →
        (∀ p ∈ db.players, p.id ≠ u) →
        (∀ s ∈ db.player_stats, s.player_id ≠ u) →
        (∀ w ∈ db.player_wallets, w.player_id ≠ u) →
        (∀ x ∈ db.player_npcs, x.player_id ≠ u) →
        (∀ q ∈ db.player_equipment, q.player_id ≠ u) →
        (∀ p ∈ (createPlayerRows db u n fail).1.players, p.id ≠ u) ∧
        (∀ s ∈ (createPlayerRows db u n fail).1.player_stats, s.player_id ≠ u) ∧
        (∀ w ∈ (createPlayerRows db u n fail).1.player_wallets, w.player_id ≠ u) ∧
        (∀ x ∈ (createPlayerRows db u n fail).1.player_npcs, x.player_id ≠ u) ∧
        (∀ q ∈ (createPlayerRows db u n fail).1.player_equipment, q.player_id ≠ u)) := by
  have h1 := createPlayerRows_error_rollback db u n fail
  refine ⟨h1, ?_, ?_⟩
  · intro hc hf
    unfold createPlayerRows createPlayerRowsBody
    rw [cashCurrency_currencies] at hc
    simp [hf, Db.cashCurrency, hc]
  · intro e he hp hs hw hn hq
    rw [h1 e he]
    exact ⟨hp, hs, hw, hn, hq⟩

/-- Witness for C1 at a concrete input: with an empty currency catalog
and no injected fault, provisioning fails with
`CASH_CURRENCY_NOT_FOUND` and returns the store unchanged. -/
theorem provisioning_atomicity_witness :
    createPlayerRows dbNoCash "p1" "alice" (fun _ => false) =
      (dbNoCash, some ProvisionError.cashCurrencyNotFound) :=
  (provisioning_atomicity dbNoCash "p1" "alice" (fun _ => false)).2.1 rfl (fun _ => rfl)

/-- C8: a successful provisioning call appends exactly the specified
initial rows, in the transaction's insert order: a stats row with all
counters zero, a cash wallet with balance 0 for the catalog's `cash`
currency, an npc row with attributes (1, 1, 1), and an empty
`weapon_primary` equipment slot. -/
theorem provisioning_initial_values (db : Db) (u n : String) (fail : Nat → Bool)
    (h : (createPlayerRows db u n fail).2 = none) :
    ∃ c, db.cashCurrency = some c ∧
      (createPlayerRows db u n fail).1 =
        { db with
          players := db.players ++ [⟨u, n, 0⟩],
          player_stats := db.player_stats ++ [⟨u, 0, 0, 0, 0⟩],
          player_wallets := db.player_wallets ++ [⟨u, c.id, 0⟩],
          player_npcs := db.player_npcs ++ [⟨u, 1, 1, 1⟩],
          player_equipment := db.player_equipment ++ [⟨u, "weapon_primary", none⟩] } := by
  unfold createPlayerRows at h ⊢
  cases hb : createPlayerRowsBody db u n fail with
  | error e => rw [hb] at h; simp at h
  | ok d =>
    rw [hb] at h
    by_cases hf : fail 6
    · simp [hf] at h
    · unfold createPlayerRowsBody at hb
      by_cases h0 : fail 0
      · simp [h0] at hb
      · by_cases hf1 : fail 1
        · simp [h0, hf1] at hb
        · by_cases hf2 : fail 2
          · simp [h0, hf1, hf2] at hb
          · cases hc : db.cashCurrency with
            | none =>
              rw [cashCurrency_currencies] at hc
              simp [h0, hf1, hf2, Db.cashCurrency, hc] at hb
            | some c =>
              rw [cashCurrency_currencies] at hc
              by_cases hf3 : fail 3
              · simp [h0, hf1, hf2, Db.cashCurrency, hc, hf3] at hb
              · by_cases hf4 : fail 4
                · simp [h0, hf1, hf2, Db.cashCurrency, hc, hf3, hf4] at hb
                · by_cases hf5 : fail 5
                  · simp [h0, hf1, hf2, Db.cashCurrency, hc, hf3, hf4, hf5] at hb
                  · simp only [h0, hf1, hf2, Db.cashCurrency, hc, hf3, hf4, hf5,
                      Bool.false_eq_true, if_false, Except.ok.injEq] at hb
                    refine ⟨c, rfl, ?_⟩
                    subst hb
                    simp [hf]

/-- Witness for C8 at a concrete input: provisioning `p1` into the
store holding only the `cash` currency succeeds and yields exactly the
specified initial rows. -/
theorem provisioning_initial_values_witness :
    ∃ c, db0.cashCurrency = some c ∧
      (createPlayerRows db0 "p1" "alice" (fun _ => false)).1 =
        { db0 with
          players := db0.players ++ [⟨"p1", "alice", 0⟩],
          player_stats := db0.player_stats ++ [⟨"p1", 0, 0, 0, 0⟩],
          player_wallets := db0.player_wallets ++ [⟨"p1", c.id, 0⟩],
          player_npcs := db0.player_npcs ++ [⟨"p1", 1, 1, 1⟩],
          player_equipment := db0.player_equipment ++ [⟨"p1", "weapon_primary", none⟩] } :=
  provisioning_initial_values db0 "p1" "alice" (fun _ => false) rfl

/-- A provisioned store: player `p1` (username `alice`) with all
required rows present, a cash wallet holding 100, and a `sword` weapon
catalog entry priced 80. -/
def dbFull : Db :=
  ⟨[⟨"p1", "alice", 0⟩], [⟨"p1", 5, 1, 2, 3⟩], [⟨1, "cash"⟩], [⟨"p1", 1, 100⟩],
   [⟨"p1", 1, 1, 1⟩], [⟨"p1", "weapon_primary", none⟩],
   [⟨7, "sword", "weapon", true, some 80⟩], [], 10⟩

/-- `dbFull` with the npc row removed: an existing player whose account
is missing a required row. -/
def dbMissingNpc : Db :=
  ⟨[⟨"p1", "alice", 0⟩], [⟨"p1", 5, 1, 2, 3⟩], [⟨1, "cash"⟩], [⟨"p1", 1, 100⟩],
   [], [⟨"p1", "weapon_primary", none⟩],
   [⟨7, "sword", "weapon", true, some 80⟩], [], 10⟩

/-- C3: the profile handler mutates nothing; with no Player row it
answers `PlayerNotFound`; with a Player row but any of the stats, cash
wallet or npc rows absent it answers `BrokenAccountState`; with all
required rows present it answers the assembled snapshot, never
`BrokenAccountState`. -/
theorem profile_assembler_spec (db : Db) (u : String) :
    (getProfile db u).2 = db ∧
    (db.players.find? (·.id = u) = none → (getProfile db u).1 = .playerNotFound) ∧
    (∀ p, db.players.find? (·.id = u) = some p →
      (db.player_stats.find? (·.player_id = u) = none ∨
       db.cashWalletFor u = none ∨
       db.player_npcs.find? (·.player_id = u) = none) →
      (getProfile db u).1 = .brokenAccountState) ∧
    (∀ p s w npc, db.players.find? (·.id = u) = some p →
      db.player_stats.find? (·.player_id = u) = some s →
      db.cashWalletFor u = some w →
      db.player_npcs.find? (·.player_id = u) = some npc →
      (getProfile db u).1 = .ok p s w.balance npc ∧
      (getProfile db u).1 ≠ .brokenAccountState) := by
  refine ⟨?_, ?_, ?_, ?_⟩
  · unfold getProfile
    cases db.players.find? (·.id = u) with
    | none => rfl
    | some p =>
      cases db.player_stats.find? (·.player_id = u) with
      | none => rfl
      | some s =>
        cases db.cashWalletFor u with
        | none => rfl
        | some w =>
          cases db.player_npcs.find? (·.player_id = u) with
          | none => rfl
          | some npc => rfl
  · intro hp
    unfold getProfile
    rw [hp]
  · intro p hp hmiss
    unfold getProfile
    rw [hp]
    rcases hmiss with hs | hw | hn
    · rw [hs]
    · cases hs : db.player_stats.find? (·.player_id = u) with
      | none => rfl
      | some s => rw [hw]
    · cases hs : db.player_stats.find? (·.player_id = u) with
      | none => rfl
      | some s =>
        cases hw : db.cashWalletFor u with
        | none => rfl
        | some w => rw [hn]
  · intro p s w npc hp hs hw hn
    unfold getProfile
    rw [hp, hs, hw, hn]
    exact ⟨rfl, fun hcon => ProfileResult.noConfusion hcon⟩

/-- Witness for C3 at concrete inputs: the fully provisioned store
yields the assembled snapshot (never `BrokenAccountState`). -/
theorem profile_assembler_spec_witness :
    (getProfile dbFull "p1").1 =
      ProfileResult.ok ⟨"p1", "alice", 0⟩ ⟨"p1", 5, 1, 2, 3⟩ 100 ⟨"p1", 1, 1, 1⟩ ∧
    (getProfile dbFull "p1").1 ≠ ProfileResult.brokenAccountState :=
  (profile_assembler_spec dbFull "p1").2.2.2 _ _ _ _ rfl rfl rfl rfl

/-- C5: one `POST /match-result` call with a player id, kills and win
flag responds `{ok:true}`; the stats row of that player becomes exactly
`matches_played + 1`, `kills + kills` (0 when the field is absent),
`wins + 1` when `win` and `wins + 0` otherwise, with `deaths` and the
`player_id` untouched; stats rows of other players and every other
table are untouched. -/
theorem match_result_increments (db : Db) (pid : String) (ks : Option Int) (win : Bool) :
    (matchResultHandler db ⟨some pid, ks, win⟩).1 = ⟨true⟩ ∧
    (matchResultHandler db ⟨some pid, ks, win⟩).2.players = db.players ∧
    (matchResultHandler db ⟨some pid, ks, win⟩).2.currencies = db.currencies ∧
    (matchResultHandler db ⟨some pid, ks, win⟩).2.player_wallets = db.player_wallets ∧
    (matchResultHandler db ⟨some pid, ks, win⟩).2.player_npcs = db.player_npcs ∧
    (matchResultHandler db ⟨some pid, ks, win⟩).2.player_equipment = db.player_equipment ∧
    (matchResultHandler db ⟨some pid, ks, win⟩).2.item_defs = db.item_defs ∧
    (matchResultHandler db ⟨some pid, ks, win⟩).2.player_items = db.player_items ∧
    (∀ s ∈ db.player_stats, s.player_id = pid →
      ({ player_id := s.player_id,
         matches_played := s.matches_played + 1,
         wins := s.wins + (if win then 1 else 0),
         kills := s.kills + ks.getD 0,
         deaths := s.deaths } : PlayerStats) ∈
        (matchResultHandler db ⟨some pid, ks, win⟩).2.player_stats) ∧
    (∀ s ∈ db.player_stats, s.player_id ≠ pid →
      s ∈ (matchResultHandler db ⟨some pid, ks, win⟩).2.player_stats) := by
  refine ⟨rfl, rfl, rfl, rfl, rfl, rfl, rfl, rfl, ?_, ?_⟩
  · intro s hs hpid
    unfold matchResultHandler
    refine List.mem_map.mpr ⟨s, hs, ?_⟩
    have hc : some s.player_id = (some pid : Option String) := by rw [hpid]
    simp [hc]
  · intro s hs hpid
    unfold matchResultHandler
    refine List.mem_map.mpr ⟨s, hs, ?_⟩
    simp [hpid]

/-- Witness for C5 at a concrete input: kills 3, win true, against the
stats row (5, 1, 2, 3). -/
theorem match_result_increments_witness :
    ({ player_id := "p1", matches_played := 6, wins := 2, kills := 5, deaths := 3 } :
       PlayerStats) ∈
      (matchResultHandler dbFull ⟨some "p1", some 3, true⟩).2.player_stats :=
  ((match_result_increments dbFull "p1" (some 3) true).2.2.2.2.2.2.2.2.1
    ⟨"p1", 5, 1, 2, 3⟩ (by simp [dbFull]) rfl)

/-- C10 (implicit): a `POST /match-result` call whose player id matches
no `player_stats` row — an unknown or never-provisioned player — still
responds `{ok:true}` and leaves the whole store unchanged,
indistinguishable from a successful update. -/
theorem match_result_unknown_player_ok (db : Db) (body : MatchResultBody)
    (h : ∀ s ∈ db.player_stats, some s.player_id ≠ body.playerId) :
    matchResultHandler db body = (⟨true⟩, db) := by
  unfold matchResultHandler
  have hmap : ∀ l : List PlayerStats, (∀ s ∈ l, some s.player_id ≠ body.playerId) →
      (l.map (fun s =>
        if some s.player_id = body.playerId then
          { s with matches_played := s.matches_played + 1,
                   kills := s.kills + body.kills.getD 0,
                   wins := s.wins + (if body.win then 1 else 0) }
        else s)) = l := by
    intro l hl
    induction l with
    | nil => rfl
    | cons a t ih =>
      rw [List.map_cons, if_neg (hl a (List.mem_cons_self a t)),
          ih (fun s hs => hl s (List.mem_cons_of_mem a hs))]
  rw [hmap db.player_stats h]

/-- Witness for C10 at a concrete input: player id `ghost` has no stats
row in the provisioned store; the call answers `{ok:true}` and the
store is unchanged. -/
theorem match_result_unknown_player_ok_witness :
    matchResultHandler dbFull ⟨some "ghost", some 2, true⟩ = (⟨true⟩, dbFull) :=
  match_result_unknown_player_ok dbFull ⟨some "ghost", some 2, true⟩ (by decide)

/-- C6 (code bug): the claim requires `POST /match-result` to be a
protected endpoint, but the route is registered without the
`requireAuth` middleware and reads the player id from the request body.
Evaluating the embedded handler at the repository's own smoke-test
request — a bearer-authenticated caller for player `p1` sending
`{kills: 2, placement: 50, win: false}` with no `playerId` field —
yields `{ok:true}` with every stats row, including `p1`'s, unchanged:
no token is consulted, no `Unauthorized` path exists, and the token's
subject is never used. -/
theorem match_result_no_auth_eval :
    matchResultHandler dbFull ⟨none, some 2, false⟩ = (⟨true⟩, dbFull) := rfl

/-- C7: the username-update handler rejects a name of length outside
3–20 with the length error before any mutation; rejects a name with a
character outside `[A-Za-z0-9_]` with the format error before any
mutation; rejects a name some existing player already holds as taken at
the advisory pre-check; still rejects it as taken — via the storage
unique-constraint violation — when the pre-check passes but a
concurrent insert lands the same name before the `UPDATE`; and only a
call passing every check updates the caller's username (and only the
caller's row). -/
theorem update_username_spec (db : Db) (interleave : Db → Db) (uid u : String) :
    ((u.length < 3 ∨ u.length > 20) →
      updateUsernameHandler db interleave uid u = (.error .invalidLength, db)) ∧
    (3 ≤ u.length → u.length ≤ 20 → usernameFormatOk u = false →
      updateUsernameHandler db interleave uid u = (.error .invalidFormat, db)) ∧
    (3 ≤ u.length → u.length ≤ 20 → usernameFormatOk u = true →
      (∃ p ∈ db.players, p.username = u) →
      updateUsernameHandler db interleave uid u = (.error .usernameTaken, db)) ∧
    (3 ≤ u.length → u.length ≤ 20 → usernameFormatOk u = true →
      (∀ p ∈ db.players, p.username ≠ u) →
      (∃ p ∈ (interleave db).players, p.username = u ∧ p.id ≠ uid) →
      updateUsernameHandler db interleave uid u = (.error .usernameTaken, interleave db)) ∧
    (3 ≤ u.length → u.length ≤ 20 → usernameFormatOk u = true →
      (∀ p ∈ db.players, p.username ≠ u) →
      (∀ p ∈ (interleave db).players, p.username = u → p.id = uid) →
      updateUsernameHandler db interleave uid u =
        (.ok (), { interleave db with players := (interleave db).players.map (fun p =>
          if p.id = uid then { p with username := u } else p) })) := by
  refine ⟨?_, ?_, ?_, ?_, ?_⟩
  · intro hlen
    unfold updateUsernameHandler
    rw [if_pos hlen]
  · intro hl1 hl2 hfmt
    unfold updateUsernameHandler
    rw [if_neg (by omega), if_pos (by rw [hfmt]; rfl)]
  · intro hl1 hl2 hfmt ⟨p, hp, hpu⟩
    unfold updateUsernameHandler
    rw [if_neg (by omega), if_neg (by rw [hfmt]; exact fun hcon => nomatch hcon),
        if_pos (List.any_eq_true.mpr ⟨p, hp, by simp [hpu]⟩)]
  · intro hl1 hl2 hfmt hpre ⟨p, hp, hpu, hpid⟩
    unfold updateUsernameHandler
    rw [if_neg (by omega), if_neg (by rw [hfmt]; exact fun hcon => nomatch hcon),
        if_neg (by simp only [List.any_eq_true, not_exists]
                   intro q hq
                   exact (hpre q hq.1) (of_decide_eq_true hq.2)),
        if_pos (List.any_eq_true.mpr ⟨p, hp, by simp [hpu, hpid]⟩)]
  · intro hl1 hl2 hfmt hpre hupd
    unfold updateUsernameHandler
    rw [if_neg (by omega), if_neg (by rw [hfmt]; exact fun hcon => nomatch hcon),
        if_neg (by simp only [List.any_eq_true, not_exists]
                   intro q hq
                   exact (hpre q hq.1) (of_decide_eq_true hq.2)),
        if_neg (by simp only [List.any_eq_true, not_exists]
                   intro q hq
                   obtain ⟨hmem, hcond⟩ := hq
                   simp only [Bool.and_eq_true, decide_eq_true_eq] at hcond
                   exact hcond.2 (hupd q hmem hcond.1))]

/-- Witness for C7 at concrete inputs: `"ab$"` (length 3, bad
character) is rejected with the format error and the store — here the
provisioned store, with the identity interleaving (no concurrent
writer) — is unchanged. -/
theorem update_username_spec_witness :
    updateUsernameHandler dbFull (fun d => d) "p1" "ab$" =
      (.error .invalidFormat, dbFull) :=
  (update_username_spec dbFull (fun d => d) "p1" "ab$").2.1
    (by decide) (by decide) (by decide)

/-- C9: in the signup flow, whenever provisioning of the local rows
fails after the external identity `uid` was created, the handler runs
the compensating `deleteUser` on that identity and reports
`ACCOUNT_INIT_FAILED`: the final identity set does not contain `uid`
and the local store is unchanged, so no identity is left without its
local rows. -/
theorem signup_compensation (auth : AuthState) (db : Db) (uid username : String)
    (fail : Nat → Bool) (e : ProvisionError)
    (hp : (createPlayerRows db uid username fail).2 = some e) :
    signupHandler auth db (.ok uid) username fail =
      (.accountInitFailed, ⟨(auth.identities ++ [uid]).filter (· ≠ uid)⟩, db) ∧
    uid ∉ (signupHandler auth db (.ok uid) username fail).2.1.identities := by
  have hdb := createPlayerRows_error_rollback db uid username fail e hp
  have hh : signupHandler auth db (.ok uid) username fail =
      (.accountInitFailed, ⟨(auth.identities ++ [uid]).filter (· ≠ uid)⟩, db) := by
    unfold signupHandler
    cases hcr : createPlayerRows db uid username fail with
    | mk d oe =>
      rw [hcr] at hp hdb
      simp only [hcr]
      cases oe with
      | none => simp at hp
      | some e2 =>
        have hd : d = db := hdb
        subst hd
        rfl
  refine ⟨hh, ?_⟩
  rw [hh]
  intro hmem
  have := (List.mem_filter.mp hmem).2
  simp at this

/-- Witness for C9 at a concrete input: signing up `u9` against a store
with no `cash` currency makes provisioning fail; the handler deletes
the freshly created identity and answers `ACCOUNT_INIT_FAILED` with the
store unchanged. -/
theorem signup_compensation_witness :
    signupHandler ⟨[]⟩ dbNoCash (.ok "u9") "alice" (fun _ => false) =
      (.accountInitFailed, ⟨([] ++ ["u9"]).filter (· ≠ "u9")⟩, dbNoCash) ∧
    "u9" ∉ (signupHandler ⟨[]⟩ dbNoCash (.ok "u9") "alice" (fun _ => false)).2.1.identities :=
  signup_compensation ⟨[]⟩ dbNoCash "u9" "alice" (fun _ => false)
    ProvisionError.cashCurrencyNotFound rfl

/-- C2: the purchase validation runs in order with the first failing
check winning — missing ItemDef → `ItemNotFound`; inactive →
`ItemInactive`; absent/malformed or negative price → `InvalidPrice`;
balance below price → `NotEnoughCash` with the store (hence the
balance) unchanged.  On success the cash wallet balance decreases by
exactly the price, exactly one new `PlayerItem` referencing that
ItemDef and player is appended, its identifier is returned, and no
other table changes. -/
theorem store_buy_spec (db : Db) (pid : String) (idid : Nat) :
    (db.item_defs.find? (·.id = idid) = none →
      storeBuy db pid idid = (.error .itemNotFound, db)) ∧
    (∀ idef, db.item_defs.find? (·.id = idid) = some idef →
      (idef.is_active = false → storeBuy db pid idid = (.error .itemInactive, db)) ∧
      (idef.is_active = true → idef.price_cash = none →
        storeBuy db pid idid = (.error .invalidPrice, db)) ∧
      (∀ pr, idef.is_active = true → idef.price_cash = some pr → pr < 0 →
        storeBuy db pid idid = (.error .invalidPrice, db)) ∧
      (∀ pr w, idef.is_active = true → idef.price_cash = some pr → 0 ≤ pr →
        db.cashWalletFor pid = some w →
        (w.balance < pr → storeBuy db pid idid = (.error .notEnoughCash, db)) ∧
        (pr ≤ w.balance →
          (storeBuy db pid idid).1 = .ok db.next_item_id ∧
          (storeBuy db pid idid).2.player_items =
            db.player_items ++ [⟨db.next_item_id, pid, idid⟩] ∧
          (storeBuy db pid idid).2.cashWalletFor pid =
            some { w with balance := w.balance - pr } ∧
          (storeBuy db pid idid).2.players = db.players ∧
          (storeBuy db pid idid).2.player_stats = db.player_stats ∧
          (storeBuy db pid idid).2.currencies = db.currencies ∧
          (storeBuy db pid idid).2.player_npcs = db.player_npcs ∧
          (storeBuy db pid idid).2.player_equipment = db.player_equipment ∧
          (storeBuy db pid idid).2.item_defs = db.item_defs))) := by
  refine ⟨?_, ?_⟩
  · intro hfind
    simp only [storeBuy, hfind]
  · intro idef hfind
    refine ⟨?_, ?_, ?_, ?_⟩
    · intro ha
      simp [storeBuy, hfind, ha]
    · intro ha hpc
      simp [storeBuy, hfind, ha, hpc]
    · intro pr ha hpc hneg
      simp [storeBuy, hfind, ha, hpc, hneg]
    · intro pr w ha hpc h0 hw
      have hwPred := List.find?_some hw
      simp only [Bool.and_eq_true, decide_eq_true_eq] at hwPred
      have hnneg : ¬(pr < 0) := by omega
      constructor
      · intro hlt
        simp [storeBuy, hfind, ha, hpc, hnneg, hw, hlt]
      · intro hge
        have hnlt : ¬(w.balance < pr) := by omega
        have hred : storeBuy db pid idid = (.ok db.next_item_id,
            { db with
              player_wallets := db.player_wallets.map (fun v =>
                if v.player_id = pid && v.currency_id = w.currency_id then
                  { v with balance := v.balance - pr }
                else v),
              player_items := db.player_items ++ [⟨db.next_item_id, pid, idid⟩],
              next_item_id := db.next_item_id + 1 }) := by
          simp [storeBuy, hfind, ha, hpc, hnneg, hw, hnlt]
        refine ⟨by rw [hred], by rw [hred], ?_, by rw [hred], by rw [hred],
                by rw [hred], by rw [hred], by rw [hred], by rw [hred]⟩
        rw [hred]
        unfold Db.cashWalletFor
        rw [find?_map_pred _ _ _ (fun v => by
          by_cases hcnd : (v.player_id = pid && v.currency_id = w.currency_id) = true
          · rw [if_pos hcnd]
          · rw [if_neg hcnd])]
        have hw' : db.player_wallets.find? (fun v =>
            v.player_id = pid && db.currencies.any
              (fun c => c.id = v.currency_id && c.key = "cash")) = some w := hw
        rw [hw']
        simp only [Option.map_some']
        rw [if_pos (by simp [hwPred.1])]

/-- Witness for C2 at a concrete input: in the provisioned store
(balance 100), buying the active `sword` ItemDef (id 7, price 80)
succeeds, returns instance id 10, appends exactly that inventory row,
and leaves the cash wallet at 20. -/
theorem store_buy_spec_witness :
    (storeBuy dbFull "p1" 7).1 = .ok 10 ∧
    (storeBuy dbFull "p1" 7).2.player_items = [] ++ [⟨10, "p1", 7⟩] ∧
    (storeBuy dbFull "p1" 7).2.cashWalletFor "p1" = some ⟨"p1", 1, 20⟩ ∧
    (storeBuy dbFull "p1" 7).2.players = dbFull.players ∧
    (storeBuy dbFull "p1" 7).2.player_stats = dbFull.player_stats ∧
    (storeBuy dbFull "p1" 7).2.currencies = dbFull.currencies ∧
    (storeBuy dbFull "p1" 7).2.player_npcs = dbFull.player_npcs ∧
    (storeBuy dbFull "p1" 7).2.player_equipment = dbFull.player_equipment ∧
    (storeBuy dbFull "p1" 7).2.item_defs = dbFull.item_defs :=
  ((store_buy_spec dbFull "p1" 7).2 ⟨7, "sword", "weapon", true, some 80⟩ rfl).2.2.2
    80 ⟨"p1", 1, 100⟩ rfl rfl (by decide) rfl |>.2 (by decide)

/-- C4: equip validation runs in order — unrecognized slot →
`InvalidSlot`; missing `PlayerItem` or one owned by a different player
→ `ItemNotOwned` with `PlayerEquipment` (the whole store) unchanged;
ItemDef category not accepted by the slot → `InvalidItem`.  On success
the `PlayerEquipment` row for (player, slot) is overwritten to
reference the given item, every other equipment row is untouched, and
the inventory — in particular any previously equipped item — is
untouched (still owned, merely unequipped). -/
theorem equip_spec (db : Db) (pid slot : String) (iid : Nat) :
    (recognizedSlots.contains slot = false →
      equipHandler db pid slot iid = (.error .invalidSlot, db)) ∧
    (recognizedSlots.contains slot = true →
      db.player_items.find? (·.id = iid) = none →
      equipHandler db pid slot iid = (.error .itemNotOwned, db)) ∧
    (∀ item, recognizedSlots.contains slot = true →
      db.player_items.find? (·.id = iid) = some item →
      (item.player_id ≠ pid → equipHandler db pid slot iid = (.error .itemNotOwned, db)) ∧
      (∀ idef, item.player_id = pid →
        db.item_defs.find? (·.id = item.item_def_id) = some idef →
        (slotAccepts slot idef.category = false →
          equipHandler db pid slot iid = (.error .invalidItem, db)) ∧
        (slotAccepts slot idef.category = true →
          (equipHandler db pid slot iid).1 = .ok () ∧
          (∀ q ∈ db.player_equipment, q.player_id = pid → q.slot = slot →
            ({ q with player_item_id := some iid } : PlayerEquipment) ∈
              (equipHandler db pid slot iid).2.player_equipment) ∧
          (∀ q ∈ db.player_equipment, ¬(q.player_id = pid ∧ q.slot = slot) →
            q ∈ (equipHandler db pid slot iid).2.player_equipment) ∧
          (equipHandler db pid slot iid).2.player_items = db.player_items ∧
          (equipHandler db pid slot iid).2.players = db.players ∧
          (equipHandler db pid slot iid).2.player_stats = db.player_stats ∧
          (equipHandler db pid slot iid).2.currencies = db.currencies ∧
          (equipHandler db pid slot iid).2.player_wallets = db.player_wallets ∧
          (equipHandler db pid slot iid).2.player_npcs = db.player_npcs ∧
          (equipHandler db pid slot iid).2.item_defs = db.item_defs))) := by
  refine ⟨?_, ?_, ?_⟩
  · intro hslot
    have hns : slot ∉ recognizedSlots := by simpa using hslot
    simp [equipHandler, hns]
  · intro hslot hfind
    have hms : slot ∈ recognizedSlots := by simpa using hslot
    simp [equipHandler, hms, hfind]
  · intro item hslot hfind
    have hms : slot ∈ recognizedSlots := by simpa using hslot
    refine ⟨?_, ?_⟩
    · intro hown
      simp [equipHandler, hms, hfind, hown]
    · intro idef hown hdef
      refine ⟨?_, ?_⟩
      · intro hcat
        simp [equipHandler, hms, hfind, hown, hdef, hcat]
      · intro hcat
        have hred : equipHandler db pid slot iid = (.ok (),
            { db with player_equipment := db.player_equipment.map (fun e =>
                if e.player_id = pid && e.slot = slot then
                  { e with player_item_id := some iid }
                else e) }) := by
          simp [equipHandler, hms, hfind, hown, hdef, hcat]
        refine ⟨by rw [hred], ?_, ?_, by rw [hred], by rw [hred], by rw [hred],
                by rw [hred], by rw [hred], by rw [hred], by rw [hred]⟩
        · intro q hq hqp hqs
          rw [hred]
          refine List.mem_map.mpr ⟨q, hq, ?_⟩
          rw [if_pos (by simp [hqp, hqs])]
        · intro q hq hqns
          rw [hred]
          refine List.mem_map.mpr ⟨q, hq, ?_⟩
          rw [if_neg (by simpa [Bool.and_eq_true, decide_eq_true_eq] using hqns)]

/-- Witness for C4 at a concrete input: after buying the `sword` in the
provisioned store, equipping inventory item 10 into `weapon_primary`
succeeds and the slot row now references item 10. -/
theorem equip_spec_witness :
    (equipHandler (storeBuy dbFull "p1" 7).2 "p1" "weapon_primary" 10).1 = .ok () ∧
    ({ player_id := "p1", slot := "weapon_primary", player_item_id := some 10 } :
        PlayerEquipment) ∈
      (equipHandler (storeBuy dbFull "p1" 7).2 "p1" "weapon_primary" 10).2.player_equipment ∧
    (equipHandler (storeBuy dbFull "p1" 7).2 "p1" "weapon_primary" 10).2.player_items =
      (storeBuy dbFull "p1" 7).2.player_items := by
  have h := ((equip_spec (storeBuy dbFull "p1" 7).2 "p1" "weapon_primary" 10).2.2
    ⟨10, "p1", 7⟩ rfl rfl).2 ⟨7, "sword", "weapon", true, some 80⟩ rfl rfl |>.2 rfl
  exact ⟨h.1, h.2.1 ⟨"p1", "weapon_primary", none⟩ (by decide) rfl rfl, h.2.2.2.1⟩

end NpcRoyale
